import Mathlib

/-!
Shallow embedding of `templateflow/cli.py` (a command-line front end with two
subcommands, `get` and `upload`) and proofs about the behaviour of that code.

External effects (environment variables, the `osf` subprocess, the OSF JSON
listing endpoints, the local filesystem) are modelled by a `World` record of
pure functions; the imperative code is translated statement by statement into
pure Lean functions that additionally return a trace of the observable effects
they performed.
-/

/-! ## Python string primitives (structural, kernel-computable) -/

/-- `leadsWith p s` is true when the character list `p` is an initial segment
of the character list `s` (the core of Python's `str.startswith`). -/
def leadsWith : List Char → List Char → Bool
  | [], _ => true
  | _ :: _, [] => false
  | p :: ps, s :: ss => p == s && leadsWith ps ss

/-- `hasSub hay pat` is true when `pat` occurs as a contiguous substring of
`hay`: Python's `pat in hay` on character lists. -/
def hasSub (hay pat : List Char) : Bool :=
  if leadsWith pat hay then true
  else
    match hay with
    | [] => false
    | _ :: rest => hasSub rest pat

/-- Python's `pat in hay` substring test on strings. -/
def strContains (hay pat : String) : Bool :=
  hasSub hay.data pat.data

/-- Python's `s.startswith(p)`. -/
def pyStartsWith (s p : String) : Bool :=
  leadsWith p.data s.data

/-- Python's `s[n:]` slice on strings. -/
def strDrop (s : String) (n : Nat) : String :=
  ⟨s.data.drop n⟩

/-- Python's `sep.join(xs)`. -/
def pyJoin (sep : String) : List String → String
  | [] => ""
  | x :: xs => xs.foldl (fun acc y => acc ++ sep ++ y) x

/-- Python truthiness of an optional string (`None` and `""` are falsy). -/
def pyTruthy : Option String → Bool
  | Option.none => false
  | Option.some s => !(s == "")

/-! ## cli.py data model -/

/-- `TEMPLATEFLOW_PROJECT_KEY = "ue5gx"` (cli.py line 15). -/
def TEMPLATEFLOW_PROJECT_KEY : String := "ue5gx"

/-- One entry of the top-level project listing
`json_from_url(url_from_key(TEMPLATEFLOW_PROJECT_KEY))["data"]`:
only the attributes the code reads (`attributes.name`, `links.move`). -/
structure TopFolder where
  name : String
  move : String

/-- A remote item of a folder listing, as read by the traversal loop in
`upload` (cli.py lines 87-97): an item is a folder (`attributes.kind ==
"folder"`) or a file.  A folder's `links.move` URL and the listing
`json_from_url(move)["data"]` it resolves to are stored together in the
node, so the remote tree is finite by construction. -/
inductive RItem where
  | folder (name : String) (move : String) (children : List RItem)
  | file (name : String) (download : String)

/-- The `files` argument of `upload`: Python distinguishes `None`, a
non-list value, and an actual list (cli.py line 59 tests
`files is None or not isinstance(files, list)`). -/
inductive FilesArg where
  | noneArg
  | notAList
  | list (fs : List String)

/-- How a run of `upload` terminates. -/
inductive UploadOutcome where
  | assertionError   -- `assert osf_pass` failed (line 55)
  | noFilesNoOp      -- printed "No files given to upload" and returned (60-61)
  | osfUploadError   -- RuntimeError("OSF upload error") (line 75)
  | noUrlError       -- RuntimeError("No URL found for template ...") (line 84)
  | copyError (f : String)  -- shutil.copy2 raised on a missing source (line 112)
  | success
deriving DecidableEq, Repr

/-- Observable effects of one `upload` run. -/
structure UploadTrace where
  subprocCalls : List (List String)       -- each sp.run argument vector (line 73)
  topListingFetched : Bool                -- json_from_url on the project key (line 79)
  manifestLines : Option (List String)    -- the lines joined by "\n" and written (line 100)
  stagedCopies : List String              -- sources successfully copied to the temp dir (112)
  addurlsCalled : Bool                    -- dapi.addurls (line 114)
  publishCalled : Bool                    -- dapi.publish (line 115)
deriving DecidableEq, Repr

/-- The external world `upload` interacts with, as pure functions. -/
structure World where
  envPassword : Option String             -- os.getenv("OSF_PASSWORD")
  globFn : String → List String           -- glob.glob
  runExit : List String → Int             -- sp.run(...).returncode
  topFolders : List TopFolder             -- top-level project listing "data"
  listingAt : String → List RItem         -- json_from_url(url)["data"] below the root
  fileExists : String → Bool              -- whether shutil.copy2 finds the source

/-! ## The upload operation, statement by statement -/

/-- Lines 53-54: `if osf_pass is None: osf_pass = os.getenv("OSF_PASSWORD")`. -/
def resolvePass (osf_pass : Option String) (w : World) : Option String :=
  match osf_pass with
  | Option.some p => Option.some p
  | Option.none => w.envPassword

/-- Lines 63-67: the loop appending each file argument to `osf_cmd`,
replacing arguments that contain `*` by their glob expansion. -/
def addFiles (globFn : String → List String) (osf_cmd : List String) :
    List String → List String
  | [] => osf_cmd
  | f :: rest =>
      if strContains f "*" then addFiles globFn (osf_cmd ++ globFn f) rest
      else addFiles globFn (osf_cmd ++ [f]) rest

/-- Lines 52-71: the full argument vector passed to `sp.run`. -/
def osfCommand (w : World) (template : String) (fs : List String)
    (force : Bool) (osf_dest : Option String) : List String :=
  addFiles w.globFn (["osf", "upload"] ++ (if force then ["-f"] else [])) fs
    ++ [match osf_dest with | Option.some d => d | Option.none => template]

/-- Lines 78-82: first top-level folder whose name equals the template,
returning its `links.move` URL. -/
def findUrl (template : String) : List TopFolder → Option String
  | [] => Option.none
  | f :: rest =>
      if f.name == template then Option.some f.move else findUrl template rest

/-- Lines 86-97: the work-queue traversal.  Items are popped from the front;
a folder's listing is appended to the end of the queue; a file whose name
contains the template contributes the row `name ++ "," ++ download`. -/
def collectHits (template : String) (items : List RItem) : List String :=
  match items with
  | [] => []
  | RItem.folder _ _ cs :: rest => collectHits template (rest ++ cs)
  | RItem.file n d :: rest =>
      if strContains n template then
        (n ++ "," ++ d) :: collectHits template rest
      else collectHits template rest
termination_by sizeOf items
decreasing_by
  all_goals
    (try
      (have h : ∀ (a b : List RItem), sizeOf (a ++ b) + 1 = sizeOf a + sizeOf b := by
        intro a b
        induction a with
        | nil => simp; omega
        | cons x xs ih => simp [List.cons_append]; omega
       have h2 := h rest cs))
  all_goals simp at *
  all_goals omega

/-- All file items `(name, download)` reachable from a queue of remote
items, folders included, in depth-first order. -/
def filesOfList (items : List RItem) : List (String × String) :=
  match items with
  | [] => []
  | RItem.folder _ _ cs :: rest => filesOfList cs ++ filesOfList rest
  | RItem.file n d :: rest => (n, d) :: filesOfList rest
termination_by sizeOf items
decreasing_by
  all_goals simp
  all_goals omega

/-- Lines 110-112: `for f in files: shutil.copy2(f, tmp)` — copies the
original arguments in order; the first missing source raises.  Returns the
successfully copied files and the first failing source, if any. -/
def stageCopies (fileExists : String → Bool) : List String → List String × Option String
  | [] => ([], Option.none)
  | f :: rest =>
      if fileExists f then
        let r := stageCopies fileExists rest
        (f :: r.1, r.2)
      else ([], Option.some f)

/-- A trace in which nothing observable has happened yet. -/
def emptyTrace : UploadTrace :=
  { subprocCalls := [], topListingFetched := false, manifestLines := Option.none,
    stagedCopies := [], addurlsCalled := false, publishCalled := false }

/-- The `upload` function of cli.py (lines 34-115), with effects traced. -/
def upload (w : World) (template : String) (files : FilesArg) (force : Bool)
    (osf_pass : Option String) (osf_dest : Option String) :
    UploadOutcome × UploadTrace :=
  let osf_pass := resolvePass osf_pass w
  if pyTruthy osf_pass = false then
    (UploadOutcome.assertionError, emptyTrace)
  else
    match files with
    | FilesArg.noneArg => (UploadOutcome.noFilesNoOp, emptyTrace)
    | FilesArg.notAList => (UploadOutcome.noFilesNoOp, emptyTrace)
    | FilesArg.list fs =>
      let osf_cmd := osfCommand w template fs force osf_dest
      if w.runExit osf_cmd ≠ 0 then
        (UploadOutcome.osfUploadError, { emptyTrace with subprocCalls := [osf_cmd] })
      else
        match findUrl template w.topFolders with
        | Option.none =>
            (UploadOutcome.noUrlError,
             { emptyTrace with subprocCalls := [osf_cmd], topListingFetched := true })
        | Option.some url =>
          let hits := "name,link" :: collectHits template (w.listingAt url)
          match stageCopies w.fileExists fs with
          | (copied, Option.some bad) =>
              (UploadOutcome.copyError bad,
               { subprocCalls := [osf_cmd], topListingFetched := true,
                 manifestLines := Option.some hits, stagedCopies := copied,
                 addurlsCalled := false, publishCalled := false })
          | (copied, Option.none) =>
              (UploadOutcome.success,
               { subprocCalls := [osf_cmd], topListingFetched := true,
                 manifestLines := Option.some hits, stagedCopies := copied,
                 addurlsCalled := true, publishCalled := true })

/-! ## The get operation and main's dispatch -/

/-- Lines 125-126 of `main`:
`if not pargs.template.startswith("tpl-"): pargs.template = "tpl-%s" % pargs.template`. -/
def normalizeTemplate (t : String) : String :=
  if pyStartsWith t "tpl-" then t else "tpl-" ++ t

/-- Lines 26-31 of `get`: the string printed for the resolved paths `fls`,
`"Got {} files{}{}".format(len(fls), ":\n" if fls else "", "\n".join([str(f) for f in fls if f]))`.
Entries are `Path` objects or `None`; `None` is falsy, a `Path` is truthy. -/
def getOutput (fls : List (Option String)) : String :=
  "Got " ++ toString fls.length ++ " files" ++
    (if fls.isEmpty then "" else ":\n") ++
    pyJoin "\n" (fls.filterMap id)

/-- A Python value as far as the keyword plumbing of `main` → `get` → `tfget`
needs: strings and string-keyed dicts (insertion-ordered). -/
inductive PyVal where
  | str (s : String)
  | dict (d : List (String × PyVal))

/-- The arguments `tfget` (the external resolution API) ends up being called
with: the positional template id and the keyword mapping. -/
structure TfGetCall where
  template : String
  kwargs : List (String × PyVal)

/-- `vars(pargs)` for the `get` subcommand: the parsed namespace has exactly
the attributes `command` (= "get"), `template` and `kwargs` (the parsed
`--kwargs` mapping, default `{}`). -/
def getVars (template : String) (filters : List (String × PyVal)) :
    List (String × PyVal) :=
  [("command", PyVal.str "get"), ("template", PyVal.str template),
   ("kwargs", PyVal.dict filters)]

/-- Python call `get(**d)` against `def get(template=None, **kwargs)` (lines
18 and 129): the `"template"` key binds the named parameter and every other
key is collected, in order, into `kwargs`. -/
def bindCall (d : List (String × PyVal)) : Option PyVal × List (String × PyVal) :=
  (List.lookup "template" d, List.filter (fun kv => !(kv.1 == "template")) d)

/-- End-to-end keyword plumbing of the `get` subcommand: `main` normalizes
the template (lines 125-126), calls `get(**vars(pargs))` (line 129), and
`get` calls `tfget(template[4:], **kwargs)` (line 26). -/
def runGetCommand (templateArg : String) (filters : List (String × PyVal)) :
    TfGetCall :=
  let t := normalizeTemplate templateArg
  let b := bindCall (getVars t filters)
  let tv := match b.1 with
    | Option.some (PyVal.str s) => s
    | _ => ""
  { template := strDrop tv 4, kwargs := b.2 }

/-! ## Concrete example worlds used by witnesses and counterexamples -/

/-- A minimal world: no environment password, empty glob expansions, the
subprocess always exits 0, an empty top-level project listing, empty remote
folders, every local file present. -/
def w0 : World :=
  { envPassword := Option.none, globFn := fun _ => [],
    runExit := fun _ => 0, topFolders := [],
    listingAt := fun _ => [], fileExists := fun _ => true }

/-- A world whose glob expands `"a*"` to two files and whose subprocess
exits 1. -/
def wg : World :=
  { envPassword := Option.none,
    globFn := fun f => if f == "a*" then ["a1", "a2"] else [],
    runExit := fun _ => 1, topFolders := [],
    listingAt := fun _ => [], fileExists := fun _ => true }

/-- A world with a matching top-level folder for `"tpl-x"` whose listing
holds one matching file, one non-matching file, and a nested folder with
another matching file. -/
def w1 : World :=
  { envPassword := Option.none, globFn := fun _ => [],
    runExit := fun _ => 0, topFolders := [⟨"tpl-x", "u1"⟩],
    listingAt := fun u =>
      if u == "u1" then
        [RItem.file "tpl-x_a.nii" "d1",
         RItem.folder "sub" "u2" [RItem.file "other.nii" "d2",
                                  RItem.file "tpl-x_b.nii" "d3"]]
      else [],
    fileExists := fun _ => true }

/-- A world in which the local file `"a*"` does not literally exist but
everything else does; the top-level listing and remote tree are as in `w1`
but trivial. -/
def wmiss : World :=
  { envPassword := Option.none, globFn := fun _ => ["a1"],
    runExit := fun _ => 0, topFolders := [⟨"tpl-x", "u1"⟩],
    listingAt := fun _ => [],
    fileExists := fun f => !(f == "a*") }

/-! ## Helper lemmas -/

theorem filesOfList_append (a b : List RItem) :
    filesOfList (a ++ b) = filesOfList a ++ filesOfList b := by
  induction a with
  | nil => simp [filesOfList]
  | cons x xs ih =>
      cases x with
      | folder n m cs => simp [filesOfList, ih, List.append_assoc]
      | file n d => simp [filesOfList, ih]

/-- The work-queue traversal emits, up to order, exactly one row per
reachable file item whose name contains the template. -/
theorem collectHits_perm (t : String) (items : List RItem) :
    (collectHits t items).Perm
      (((filesOfList items).filter (fun p => strContains p.1 t)).map
        (fun p => p.1 ++ "," ++ p.2)) := by
  induction items using collectHits.induct t with
  | case1 => simp [collectHits, filesOfList]
  | case2 n m cs rest ih =>
      have h1 : collectHits t (RItem.folder n m cs :: rest)
          = collectHits t (rest ++ cs) := by
        simp [collectHits]
      rw [h1]
      rw [filesOfList_append] at ih
      refine ih.trans ?_
      have h2 : filesOfList (RItem.folder n m cs :: rest)
          = filesOfList cs ++ filesOfList rest := by
        simp [filesOfList]
      rw [h2]
      simp only [List.filter_append, List.map_append]
      exact List.perm_append_comm
  | case3 n d rest hc ih =>
      have h1 : collectHits t (RItem.file n d :: rest)
          = (n ++ "," ++ d) :: collectHits t rest := by
        simp [collectHits, hc]
      have h2 : filesOfList (RItem.file n d :: rest)
          = (n, d) :: filesOfList rest := by
        simp [filesOfList]
      rw [h1, h2]
      simp only [List.filter_cons, hc, List.map_cons]
      exact ih.cons _
  | case4 n d rest hc ih =>
      have h1 : collectHits t (RItem.file n d :: rest) = collectHits t rest := by
        simp [collectHits, hc]
      have h2 : filesOfList (RItem.file n d :: rest)
          = (n, d) :: filesOfList rest := by
        simp [filesOfList]
      rw [h1, h2]
      simp only [List.filter_cons]
      simp [hc]
      exact ih

/-- The file-argument loop of `upload` appends, in argument order, the glob
expansion of each wildcard argument and each other argument literally. -/
theorem addFiles_spec (g : String → List String) (cmd : List String)
    (fs : List String) :
    addFiles g cmd fs
      = cmd ++ fs.flatMap (fun f => if strContains f "*" then g f else [f]) := by
  induction fs generalizing cmd with
  | nil => simp [addFiles]
  | cons f rest ih =>
      by_cases h : strContains f "*"
      · simp [addFiles, h, ih, List.append_assoc]
      · simp [addFiles, h, ih]

/-- The staging loop fails exactly at `f` when `f` is in the list, `f` does
not exist, and every other listed file exists. -/
theorem stageCopies_first_missing (ex : String → Bool) (fs : List String)
    (f : String) (hf : f ∈ fs) (hmiss : ex f = false)
    (hothers : ∀ g ∈ fs, g ≠ f → ex g = true) :
    (stageCopies ex fs).2 = Option.some f := by
  induction fs with
  | nil => cases hf
  | cons a rest ih =>
      by_cases ha : a = f
      · subst ha
        simp [stageCopies, hmiss]
      · have hexa : ex a = true := hothers a (List.mem_cons_self a rest) ha
        have hfr : f ∈ rest := by
          rcases List.mem_cons.mp hf with h | h
          · exact absurd h.symm ha
          · exact h
        simp only [stageCopies, hexa, if_true]
        exact ih hfr (fun g hg hne => hothers g (List.mem_cons_of_mem a hg) hne)

/-- `leadsWith p (p ++ s)` always holds. -/
theorem leadsWith_self_append (p s : List Char) :
    leadsWith p (p ++ s) = true := by
  induction p with
  | nil => simp [leadsWith]
  | cons c cs ih => simp [leadsWith, ih]

/-! ## Claim theorems -/

/-- C5: for every template argument string, if it does not start with the
literal `"tpl-"` the normalized form is `"tpl-"` concatenated with the
argument, and if it already starts with `"tpl-"` it is left unchanged (so
the normalized form always starts with `"tpl-"`). -/
theorem template_normalization (t : String) :
    (pyStartsWith t "tpl-" = false → normalizeTemplate t = "tpl-" ++ t) ∧
    (pyStartsWith t "tpl-" = true → normalizeTemplate t = t) ∧
    pyStartsWith (normalizeTemplate t) "tpl-" = true := by
  refine ⟨fun h => by simp [normalizeTemplate, h],
          fun h => by simp [normalizeTemplate, h], ?_⟩
  by_cases h : pyStartsWith t "tpl-"
  · simp [normalizeTemplate, h]
  · simp only [normalizeTemplate, h, if_false, Bool.false_eq_true]
    show leadsWith "tpl-".data ("tpl-".data ++ t.data) = true
    exact leadsWith_self_append _ _

/-- Witness for C5 at the concrete inputs `"fsLR"` (not prefixed) and
`"tpl-fsLR"` (already prefixed). -/
theorem template_normalization_witness :
    normalizeTemplate "fsLR" = "tpl-" ++ "fsLR" ∧
    normalizeTemplate "tpl-fsLR" = "tpl-fsLR" :=
  ⟨(template_normalization "fsLR").1 (by decide),
   (template_normalization "tpl-fsLR").2.1 (by decide)⟩

/-- C9: the credential assertion of `upload` comes before the file-list
check, so an unresolvable password (argument and environment both missing
or empty) raises the assertion failure for every `files` argument,
including `None` and other values that would otherwise be the silent
no-op. -/
theorem password_checked_first (w : World) (t : String) (files : FilesArg)
    (force : Bool) (op od : Option String)
    (hp : pyTruthy (resolvePass op w) = false) :
    (upload w t files force op od).1 = UploadOutcome.assertionError ∧
    (upload w t files force op od).2 = emptyTrace := by
  simp [upload, hp]

/-- Witness for C9: no password argument, no environment password, and
`files = None` still yields the assertion failure (not the no-op). -/
theorem password_checked_first_witness :
    (upload w0 "tpl-x" FilesArg.noneArg false Option.none Option.none).1
      = UploadOutcome.assertionError ∧
    (upload w0 "tpl-x" FilesArg.noneArg false Option.none Option.none).2
      = emptyTrace :=
  password_checked_first w0 "tpl-x" FilesArg.noneArg false Option.none
    Option.none (by decide)

/-- C2 counterexample: with a resolvable password and `files = []` (an
empty list), `upload` does invoke the storage-provider subprocess — the
empty list is not special-cased by the `files is None or not
isinstance(files, list)` check, refuting the claim that an empty list
performs no subprocess call. -/
theorem empty_list_subproc_cex :
    (upload w0 "tpl-x" (FilesArg.list []) false (Option.some "pw")
        Option.none).2.subprocCalls = [["osf", "upload", "tpl-x"]] ∧
    (upload w0 "tpl-x" (FilesArg.list []) false (Option.some "pw")
        Option.none).2.subprocCalls ≠ [] := by
  constructor
  · rfl
  · decide

/-- C2 (amended): with a resolvable password, `upload` with a `files`
argument that is `None` or not a list performs no subprocess call and
returns without raising (the silent no-op); an empty list is not covered
by this check. -/
theorem none_or_nonlist_noop (w : World) (t : String) (force : Bool)
    (op od : Option String) (files : FilesArg)
    (hp : pyTruthy (resolvePass op w) = true)
    (hf : files = FilesArg.noneArg ∨ files = FilesArg.notAList) :
    (upload w t files force op od).1 = UploadOutcome.noFilesNoOp ∧
    (upload w t files force op od).2 = emptyTrace := by
  rcases hf with h | h <;> subst h <;> simp [upload, hp]

/-- Witness for the amended C2 at `files = None` with password `"pw"`. -/
theorem none_or_nonlist_noop_witness :
    (upload w0 "tpl-x" FilesArg.noneArg false (Option.some "pw")
        Option.none).1 = UploadOutcome.noFilesNoOp ∧
    (upload w0 "tpl-x" FilesArg.noneArg false (Option.some "pw")
        Option.none).2 = emptyTrace :=
  none_or_nonlist_noop w0 "tpl-x" false (Option.some "pw") Option.none
    FilesArg.noneArg (by decide) (Or.inl rfl)

/-- C6: whenever the subprocess is reached (password resolvable, `files` a
list), its single recorded invocation is
`osf upload [-f] <expanded files> <destination>`, where each file argument
containing `*` is replaced in place by its glob expansion, each other
argument passes through literally, and relative order is preserved.  The
world's glob function is arbitrary (it may expand to `[]`): no check is
made that an expansion yields any matches. -/
theorem glob_expansion (w : World) (t : String) (fs : List String)
    (force : Bool) (op od : Option String)
    (hp : pyTruthy (resolvePass op w) = true) :
    (upload w t (FilesArg.list fs) force op od).2.subprocCalls
      = [("osf" :: "upload" :: (if force then ["-f"] else []))
          ++ fs.flatMap (fun f => if strContains f "*" then w.globFn f else [f])
          ++ [match od with | Option.some d => d | Option.none => t]] := by
  have hc : osfCommand w t fs force od
      = ("osf" :: "upload" :: (if force then ["-f"] else []))
        ++ fs.flatMap (fun f => if strContains f "*" then w.globFn f else [f])
        ++ [match od with | Option.some d => d | Option.none => t] := by
    simp [osfCommand, addFiles_spec]
  rw [← hc]
  simp only [upload, hp, Bool.true_eq_false, if_false]
  split
  · rfl
  · split
    · rfl
    · split
      · rfl
      · rfl

/-- Witness for C6: `["a*", "b"]` with a glob expanding `"a*"` to
`["a1", "a2"]` produces the command `osf upload a1 a2 b tpl-x`. -/
theorem glob_expansion_witness :
    (upload wg "tpl-x" (FilesArg.list ["a*", "b"]) false (Option.some "pw")
        Option.none).2.subprocCalls
      = [["osf", "upload", "a1", "a2", "b", "tpl-x"]] := by
  rw [glob_expansion wg "tpl-x" ["a*", "b"] false (Option.some "pw")
    Option.none rfl]
  decide

/-- C7: when the top-level project listing has no folder named like the
template, `upload` fails with the no-URL runtime error, and at that point
no manifest has been written, no staging copy has happened, no registration
or publish has run, and only the one initial subprocess invocation has
occurred. -/
theorem no_url_fails_early (w : World) (t : String) (fs : List String)
    (force : Bool) (op od : Option String)
    (hp : pyTruthy (resolvePass op w) = true)
    (hrun : w.runExit (osfCommand w t fs force od) = 0)
    (hurl : findUrl t w.topFolders = Option.none) :
    (upload w t (FilesArg.list fs) force op od).1 = UploadOutcome.noUrlError ∧
    (upload w t (FilesArg.list fs) force op od).2.manifestLines = Option.none ∧
    (upload w t (FilesArg.list fs) force op od).2.stagedCopies = [] ∧
    (upload w t (FilesArg.list fs) force op od).2.subprocCalls
      = [osfCommand w t fs force od] ∧
    (upload w t (FilesArg.list fs) force op od).2.addurlsCalled = false ∧
    (upload w t (FilesArg.list fs) force op od).2.publishCalled = false := by
  simp [upload, hp, hrun, hurl, emptyTrace]

/-- Witness for C7: empty top-level listing, successful subprocess. -/
theorem no_url_fails_early_witness :
    (upload w0 "tpl-x" (FilesArg.list ["f"]) false (Option.some "pw")
        Option.none).1 = UploadOutcome.noUrlError ∧
    (upload w0 "tpl-x" (FilesArg.list ["f"]) false (Option.some "pw")
        Option.none).2.manifestLines = Option.none ∧
    (upload w0 "tpl-x" (FilesArg.list ["f"]) false (Option.some "pw")
        Option.none).2.stagedCopies = [] ∧
    (upload w0 "tpl-x" (FilesArg.list ["f"]) false (Option.some "pw")
        Option.none).2.subprocCalls
      = [osfCommand w0 "tpl-x" ["f"] false Option.none] ∧
    (upload w0 "tpl-x" (FilesArg.list ["f"]) false (Option.some "pw")
        Option.none).2.addurlsCalled = false ∧
    (upload w0 "tpl-x" (FilesArg.list ["f"]) false (Option.some "pw")
        Option.none).2.publishCalled = false :=
  no_url_fails_early w0 "tpl-x" ["f"] false (Option.some "pw") Option.none
    rfl rfl rfl

/-- C8: a non-zero exit code of the storage-provider subprocess makes the
whole operation fail with the generic runtime error; the resulting trace
shows the single subprocess call and nothing else — no top-level listing
fetch (URL resolution), no manifest, no staging, no registration, no
publish. -/
theorem subproc_failure_aborts (w : World) (t : String) (fs : List String)
    (force : Bool) (op od : Option String)
    (hp : pyTruthy (resolvePass op w) = true)
    (hrun : w.runExit (osfCommand w t fs force od) ≠ 0) :
    (upload w t (FilesArg.list fs) force op od).1
      = UploadOutcome.osfUploadError ∧
    (upload w t (FilesArg.list fs) force op od).2
      = { emptyTrace with subprocCalls := [osfCommand w t fs force od] } := by
  simp [upload, hp, hrun]

/-- Witness for C8: in `wg` the subprocess exits 1, so the upload aborts
with the runtime error right after the single subprocess call. -/
theorem subproc_failure_aborts_witness :
    (upload wg "tpl-x" (FilesArg.list ["f"]) false (Option.some "pw")
        Option.none).1 = UploadOutcome.osfUploadError ∧
    (upload wg "tpl-x" (FilesArg.list ["f"]) false (Option.some "pw")
        Option.none).2
      = { emptyTrace with
          subprocCalls := [osfCommand wg "tpl-x" ["f"] false Option.none] } :=
  subproc_failure_aborts wg "tpl-x" ["f"] false (Option.some "pw")
    Option.none rfl (by decide)

/-- C1: whenever `upload` writes a manifest, its first line is the header
`name,link` and the remaining rows are, up to order, exactly one
`name ++ "," ++ download` row per remote file item reachable from the
traversal root (nested folders expanded into the work queue) whose name
contains the template identifier as a substring; non-matching file items
contribute no row. -/
theorem manifest_exact (w : World) (t : String) (fs : List String)
    (force : Bool) (op od : Option String) (m : List String)
    (h : (upload w t (FilesArg.list fs) force op od).2.manifestLines
      = Option.some m) :
    ∃ url rows, findUrl t w.topFolders = Option.some url ∧
      m = "name,link" :: rows ∧
      rows.Perm (((filesOfList (w.listingAt url)).filter
          (fun p => strContains p.1 t)).map (fun p => p.1 ++ "," ++ p.2)) := by
  simp only [upload] at h
  split at h
  · simp [emptyTrace] at h
  · split at h
    · simp [emptyTrace] at h
    · split at h
      · simp [emptyTrace] at h
      · rename_i url hurl
        split at h
        · simp only [Option.some.injEq] at h
          exact ⟨url, _, hurl, h.symm, collectHits_perm t _⟩
        · simp only [Option.some.injEq] at h
          exact ⟨url, _, hurl, h.symm, collectHits_perm t _⟩

/-- Witness for C1: in `w1` the traversal root lists a matching file, and a
nested folder holding a non-matching and a matching file; the manifest is
the header plus the two matching rows. -/
theorem manifest_exact_witness :
    ∃ url rows, findUrl "tpl-x" w1.topFolders = Option.some url ∧
      ["name,link", "tpl-x_a.nii,d1", "tpl-x_b.nii,d3"]
        = "name,link" :: rows ∧
      rows.Perm (((filesOfList (w1.listingAt url)).filter
          (fun p => strContains p.1 "tpl-x")).map
            (fun p => p.1 ++ "," ++ p.2)) :=
  manifest_exact w1 "tpl-x" ["f"] false (Option.some "pw") Option.none
    ["name,link", "tpl-x_a.nii,d1", "tpl-x_b.nii,d3"]
    (by simp [upload, osfCommand, addFiles, findUrl, w1, collectHits,
              stageCopies, strContains, hasSub, leadsWith, resolvePass,
              pyTruthy, emptyTrace])

/-- C10: the staging loop copies the originally-given arguments, not their
expansions: if the files list holds a wildcard entry `f` that names no
literal file (all other entries existing), the run ends with the copy
error raised at `f`, even though the subprocess call earlier used `f`'s
glob expansion; registration and publish never run. -/
theorem staging_copies_originals (w : World) (t : String) (fs : List String)
    (force : Bool) (op od : Option String) (f : String) (url : String)
    (hp : pyTruthy (resolvePass op w) = true)
    (hrun : w.runExit (osfCommand w t fs force od) = 0)
    (hurl : findUrl t w.topFolders = Option.some url)
    (hf : f ∈ fs) (hstar : strContains f "*" = true)
    (hmiss : w.fileExists f = false)
    (hothers : ∀ g ∈ fs, g ≠ f → w.fileExists g = true) :
    (upload w t (FilesArg.list fs) force op od).1
      = UploadOutcome.copyError f ∧
    (upload w t (FilesArg.list fs) force op od).2.subprocCalls
      = [osfCommand w t fs force od] ∧
    (upload w t (FilesArg.list fs) force op od).2.addurlsCalled = false ∧
    (upload w t (FilesArg.list fs) force op od).2.publishCalled = false := by
  have hstage := stageCopies_first_missing w.fileExists fs f hf hmiss hothers
  rcases hsc : stageCopies w.fileExists fs with ⟨copied, err⟩
  have herr : err = Option.some f := by
    rw [hsc] at hstage
    exact hstage
  subst herr
  simp [upload, hp, hrun, hurl, hsc]

/-- Witness for C10: `files = ["b", "a*"]` where `"b"` exists, `"a*"`
expands to `["a1"]` for the subprocess but names no literal file; the
upload ends in the copy error at `"a*"`. -/
theorem staging_copies_originals_witness :
    (upload wmiss "tpl-x" (FilesArg.list ["b", "a*"]) false
        (Option.some "pw") Option.none).1
      = UploadOutcome.copyError "a*" ∧
    (upload wmiss "tpl-x" (FilesArg.list ["b", "a*"]) false
        (Option.some "pw") Option.none).2.subprocCalls
      = [osfCommand wmiss "tpl-x" ["b", "a*"] false Option.none] ∧
    (upload wmiss "tpl-x" (FilesArg.list ["b", "a*"]) false
        (Option.some "pw") Option.none).2.addurlsCalled = false ∧
    (upload wmiss "tpl-x" (FilesArg.list ["b", "a*"]) false
        (Option.some "pw") Option.none).2.publishCalled = false :=
  staging_copies_originals wmiss "tpl-x" ["b", "a*"] false
    (Option.some "pw") Option.none "a*" "u1" rfl rfl (by decide)
    (by decide) (by decide) (by decide) (by decide)

/-- C3 (code bug evidence): `main` invokes `get(**vars(pargs))`, so with no
`--kwargs` given the keyword mapping handed to the external resolution API
is not empty: it carries the spurious `command` key and the unexpanded
`kwargs` dict. -/
theorem get_kwargs_leak :
    (runGetCommand "fsLR" []).template = "fsLR" ∧
    (runGetCommand "fsLR" []).kwargs
      = [("command", PyVal.str "get"), ("kwargs", PyVal.dict [])] ∧
    (runGetCommand "fsLR" []).kwargs ≠ [] := by
  refine ⟨rfl, rfl, ?_⟩
  rw [show (runGetCommand "fsLR" []).kwargs
      = [("command", PyVal.str "get"), ("kwargs", PyVal.dict [])] from rfl]
  simp

/-- C4 counterexample: for the resolved sequence `[some "a", None]` the
code prints `Got 2 files:` followed by the single non-null path line `a`;
the claim's `N` (number of non-null path lines, here 1) does not match. -/
theorem got_count_cex :
    getOutput [Option.some "a", Option.none] = "Got 2 files:\na" ∧
    getOutput [Option.some "a", Option.none] ≠ "Got 1 files:\na" := by
  constructor
  · rfl
  · decide

/-- C4 (amended): for every non-empty resolved sequence the output is
`Got N files:` with `N` the total number of entries (nulls included),
followed by the non-null paths joined one per line; for the empty sequence
the output is exactly `Got 0 files` with no colon and no paths. -/
theorem got_count_amended (fls : List (Option String)) :
    (fls ≠ [] → getOutput fls
      = "Got " ++ toString fls.length ++ " files:\n"
        ++ pyJoin "\n" (fls.filterMap id)) ∧
    getOutput ([] : List (Option String)) = "Got 0 files" := by
  constructor
  · intro h
    simp [getOutput, h, String.append_assoc]
  · rfl

/-- Witness for the amended C4 at the concrete sequence `[some "a", None]`. -/
theorem got_count_amended_witness :
    getOutput [Option.some "a", Option.none]
      = "Got " ++ toString ([Option.some "a", Option.none].length)
        ++ " files:\n"
        ++ pyJoin "\n" ([Option.some "a", Option.none].filterMap id) :=
  (got_count_amended [Option.some "a", Option.none]).1 (by decide)
